import Mathlib

/-!
Shallow embedding of `src/command/dev/command.rs`: the `CommandRunner` /
`BackgroundTask` background-process supervisor.

Modelling choices, all read off the Rust source:

* `SubgraphName` and `Endpoint` (`Url`) are value objects compared by
  equality; both are embedded as `String`.  Process identifiers (`Pid`)
  are `Nat`.
* The task registry `HashMap<SubgraphName, BackgroundTask>` is embedded as
  an association list in insertion order; `spawn` checks for a duplicate
  key before inserting, so keys stay unique and append models
  `HashMap::insert` exactly on the reachable states.
* External collaborators are oracles passed as function arguments:
  - `resolve : String → Bool` is `which::which(bin).is_ok()`;
  - `spawnProc : String → List String → Option Pid` is
    `BackgroundTask::new` (`Command::new(bin).args(args).spawn()`):
    `some pid` on success, `none` for the propagated spawn failure;
  - `choose : List Endpoint → Option Nat` is
    `Select::new().items(..).default(0).interact()` (`some i` when the
    user picks index `i`, `none` when the chooser errors/aborts);
  - `notifyOk : SubgraphName → Bool` is the success of
    `MessageSender::remove_subgraph`;
  - `procHas : Pid → Bool` is the refreshed `sysinfo::System` snapshot
    (`self.system.process(pid).is_some()`), one oracle per
    `kill_tasks` call because the snapshot is refreshed once per call;
  - `killOk : Pid → Bool` is the result of `Process::kill`.
* Rust `command.split(' ')` is embedded by the structurally recursive
  `splitChar ' '`: it splits on each single space and keeps empty pieces,
  exactly like `str::split` with a `char` pattern (`"".split(' ')` yields
  `[""]`, so the split is never empty).
* In `spawn_and_find_url` the polling loop is driven by `Instant::now()`
  and the scanner collaborator.  Its execution is embedded as a finite
  trace `List (Nat × List Endpoint)`: one entry per iteration whose
  `while` guard is evaluated, carrying `now.elapsed()` in milliseconds at
  that guard check and the list that
  `get_all_local_graphql_endpoints_except` returns for that iteration
  (already excluding the baseline endpoints, per that collaborator's
  contract).  An entry with elapsed time `≥ 5000` makes the guard fail,
  which models `Duration::from_secs(5)`.  The monotone unbounded real
  clock guarantees such an entry eventually occurs, so a finite trace
  loses no behaviour.
* Effects that the Rust code performs for their side effects alone
  (notification sends, kill signals, the warning print) are collected in
  an `Effect` log so that theorems can talk about which calls were made.
-/

namespace Rover

/-- Logical task name (`SubgraphName` in the source), compared by equality. -/
abbrev SubgraphName := String

/-- A candidate service location (`reqwest::Url` in the source), compared by
equality. -/
abbrev Endpoint := String

/-- OS-assigned process identifier (`sysinfo::Pid`). -/
abbrev Pid := Nat

/-- One live child OS process: `struct BackgroundTask { child: Child }`.
Only the process identifier (`BackgroundTask::pid`) is observable. -/
structure BackgroundTask where
  pid : Pid
deriving DecidableEq, Repr

/-- The supervisor state: `struct CommandRunner` with its task registry
`tasks : HashMap<SubgraphName, BackgroundTask>`, embedded as an association
list in insertion order.  The `message_sender` address and the `sysinfo`
cache carry no registry information and are represented by the per-call
oracles instead. -/
structure CommandRunner where
  tasks : List (SubgraphName × BackgroundTask)
deriving DecidableEq, Repr

/-- The error kinds surfaced by `CommandRunner`, one tag per distinct
`RoverError` message in the source:
* `duplicateTask n` — "subgraph with name '{n}' already has a running process";
* `emptyCommand` — "the command you passed is empty";
* `executableNotFound bin` — "{bin} is not installed on this machine";
* `spawnFailure` — "could not spawn child process";
* `discoveryTimeout` — "could not find GraphQL endpoint after 5 seconds". -/
inductive RoverError where
  | duplicateTask (name : SubgraphName)
  | emptyCommand
  | executableNotFound (bin : String)
  | spawnFailure
  | discoveryTimeout
deriving DecidableEq, Repr

/-- Rust `str::split(sep)` with a `char` pattern, over the string's
characters: splits at every occurrence of `sep`, keeping empty pieces, and
yields `[[]]` on the empty string. -/
def splitChar (sep : Char) : List Char → List (List Char)
  | [] => [[]]
  | c :: rest =>
    if c = sep then [] :: splitChar sep rest
    else
      match splitChar sep rest with
      | [] => [[c]]
      | w :: ws => (c :: w) :: ws

/-- The token list `command.split(' ').collect::<Vec<&str>>()` from
`CommandRunner::spawn`. -/
def splitCommand (command : String) : List String :=
  (splitChar ' ' command.toList).map (fun cs => String.mk cs)

/-- Result of `CommandRunner::spawn`: the registry state after the call,
the `Result<()>` value, and the launch log — one `(bin, args)` entry for
each invocation of `BackgroundTask::new` (i.e. each attempted process
launch). -/
structure SpawnOut where
  state : CommandRunner
  result : Except RoverError Unit
  launched : List (String × List String)
deriving Repr

/-- `CommandRunner::spawn(subgraph_name, command)`, clause for clause:
1. if any existing registry key equals `subgraph_name`, fail with
   `duplicateTask` before touching anything;
2. split `command` on the space character; the `args.len() == 0` arm of
   the source match returns `emptyCommand` (the `[]` case here);
   otherwise the head token is the binary and the tail the arguments;
3. if `which::which(bin)` fails, fail with `executableNotFound bin`;
4. otherwise launch via `BackgroundTask::new`; on launch failure propagate
   `spawnFailure`, on success insert the task under `subgraph_name`. -/
def spawn (resolve : String → Bool) (spawnProc : String → List String → Option Pid)
    (st : CommandRunner) (subgraph_name : SubgraphName) (command : String) : SpawnOut :=
  if st.tasks.any (fun t => t.1 = subgraph_name) then
    ⟨st, .error (.duplicateTask subgraph_name), []⟩
  else
    match splitCommand command with
    | [] => ⟨st, .error .emptyCommand, []⟩
    | bin :: args =>
      if resolve bin then
        match spawnProc bin args with
        | some pid =>
          ⟨⟨st.tasks ++ [(subgraph_name, ⟨pid⟩)]⟩, .ok (), [(bin, args)]⟩
        | none => ⟨st, .error .spawnFailure, [(bin, args)]⟩
      else ⟨st, .error (.executableNotFound bin), []⟩

/-- The discovery polling loop of `CommandRunner::spawn_and_find_url`,
over the finite trace of in-deadline iterations.  Each trace entry is
`(now.elapsed()` in ms at the guard check, the scanner's filtered result
for that iteration`)`.  Returns the discovered endpoint (if any) together
with the log of candidate lists handed to the interactive chooser:
* guard `now.elapsed() < Duration::from_secs(5)` fails once the elapsed
  entry reaches `5000`, ending the loop with no endpoint;
* a scan of length 0 continues the loop;
* a scan of length 1 resolves to its sole element;
* a longer scan invokes the chooser: `Ok(i)` resolves to element `i`
  (`dialoguer` only returns in-range indices), `Err` continues the loop. -/
def findUrlLoop (choose : List Endpoint → Option Nat) :
    List (Nat × List Endpoint) → Option Endpoint × List (List Endpoint)
  | [] => (none, [])
  | (t, es) :: rest =>
    if t < 5000 then
      match es with
      | [] => findUrlLoop choose rest
      | [e] => (some e, [])
      | e1 :: e2 :: tl =>
        match choose (e1 :: e2 :: tl) with
        | some i => (some ((e1 :: e2 :: tl).getD i ""), [e1 :: e2 :: tl])
        | none =>
          let r := findUrlLoop choose rest
          (r.1, (e1 :: e2 :: tl) :: r.2)
    else (none, [])

/-- Result of `CommandRunner::spawn_and_find_url`: final registry state,
the `Result<Url>` value, and the log of candidate lists on which the
interactive chooser was invoked. -/
structure FindUrlOut where
  state : CommandRunner
  result : Except RoverError Endpoint
  chooserCalls : List (List Endpoint)
deriving Repr

/-- `CommandRunner::spawn_and_find_url(subgraph_name, command, client,
existing_subgraphs)`: snapshot the baseline (absorbed into the scanner
oracle, which by contract already excludes it), call `spawn` and propagate
any failure immediately, then run the polling loop over the iteration
`trace`; a resolved endpoint is returned as `Ok`, otherwise the call fails
with `discoveryTimeout` — in both cases the registry keeps the spawned
task. -/
def spawn_and_find_url (resolve : String → Bool)
    (spawnProc : String → List String → Option Pid) (st : CommandRunner)
    (subgraph_name : SubgraphName) (command : String)
    (trace : List (Nat × List Endpoint)) (choose : List Endpoint → Option Nat) :
    FindUrlOut :=
  let s := spawn resolve spawnProc st subgraph_name command
  match s.result with
  | .error e => ⟨s.state, .error e, []⟩
  | .ok _ =>
    match findUrlLoop choose trace with
    | (some url, clog) => ⟨s.state, .ok url, clog⟩
    | (none, clog) => ⟨s.state, .error .discoveryTimeout, clog⟩

/-- Observable calls made by `CommandRunner::kill_tasks`:
* `notify n` — `self.message_sender.remove_subgraph(n)` was sent;
* `handleError n` — that send failed and the error was routed to
  `handle_rover_error` (non-fatal);
* `kill p` — the process with pid `p` was found in the refreshed snapshot
  and `process.kill()` was requested;
* `warn p` — that kill request reported failure and the non-fatal
  "could not drop process" warning was printed. -/
inductive Effect where
  | notify (name : SubgraphName)
  | handleError (name : SubgraphName)
  | kill (pid : Pid)
  | warn (pid : Pid)
deriving DecidableEq, Repr

/-- The body of the `for (subgraph_name, background_task) in &self.tasks`
loop of `kill_tasks`, as the list of calls it performs for one entry. -/
def perTaskEffects (notifyOk : SubgraphName → Bool) (procHas killOk : Pid → Bool)
    (entry : SubgraphName × BackgroundTask) : List Effect :=
  (Effect.notify entry.1 ::
      (if notifyOk entry.1 then [] else [Effect.handleError entry.1])) ++
    (if procHas entry.2.pid then
      Effect.kill entry.2.pid ::
        (if killOk entry.2.pid then [] else [Effect.warn entry.2.pid])
    else [])

/-- `CommandRunner::kill_tasks`: if the registry is non-empty, refresh the
process-table snapshot once (the `procHas` oracle) and run the per-task
loop over every entry; the registry itself is not modified.  The function
returns `()` in the source — there is no error path — so the embedding
returns the (unchanged) state and the log of calls performed. -/
def kill_tasks (notifyOk : SubgraphName → Bool) (procHas killOk : Pid → Bool)
    (st : CommandRunner) : CommandRunner × List Effect :=
  if st.tasks.isEmpty then (st, [])
  else (st, st.tasks.flatMap (perTaskEffects notifyOk procHas killOk))

/-- `impl Drop for CommandRunner`: `fn drop(&mut self) { self.kill_tasks() }`. -/
def dropRunner (notifyOk : SubgraphName → Bool) (procHas killOk : Pid → Bool)
    (st : CommandRunner) : CommandRunner × List Effect :=
  kill_tasks notifyOk procHas killOk st

/-- Rust `str::split` always yields at least one piece, so the
`args.len() == 0` arm of the source match in `spawn` is unreachable. -/
theorem splitChar_ne_nil (sep : Char) (s : List Char) : splitChar sep s ≠ [] := by
  induction s with
  | nil => simp [splitChar]
  | cons c rest ih =>
    simp only [splitChar]
    split
    · simp
    · split
      · simp
      · simp

/-- The token list of `spawn` is never empty, whatever the command line. -/
theorem splitCommand_ne_nil (command : String) : splitCommand command ≠ [] := by
  simp [splitCommand, splitChar_ne_nil]

/-- When `spawn` succeeds, the registry afterwards has an entry whose key is
the spawned name (it is the old registry with `(name, pid)` appended). -/
theorem spawn_ok_any (r : String → Bool) (sp : String → List String → Option Pid)
    (st : CommandRunner) (n : SubgraphName) (cmd : String)
    (h : (spawn r sp st n cmd).result = .ok ()) :
    (spawn r sp st n cmd).state.tasks.any (fun t => t.1 = n) = true := by
  by_cases hdup : st.tasks.any (fun t => t.1 = n) = true
  · simp [spawn, hdup] at h
  · rcases hsplit : splitCommand cmd with _ | ⟨bin, args⟩
    · simp [spawn, hdup, hsplit] at h
    · by_cases hres : r bin = true
      · rcases hsp : sp bin args with _ | pid
        · simp [spawn, hdup, hsplit, hres, hsp] at h
        · simp [spawn, hdup, hsplit, hres, hsp, List.any_append]
      · simp [spawn, hdup, hsplit, hres] at h

/-- C1: the claim fails on the code.  Splitting `""` or `"   "` on the space
character keeps empty pieces, so the token list is never empty and the
`emptyCommand` arm is unreachable: under every resolver, launcher and
registry state, `spawn(n, "")` and `spawn(n, "   ")` do not return the
`EmptyCommand` error.  Concretely, with a resolver that (like `which`)
rejects the empty binary name, both calls return `ExecutableNotFound` for
the empty string instead. -/
theorem spawn_empty_command_never_emptyCommand :
    (∀ (r : String → Bool) (sp : String → List String → Option Pid)
        (st : CommandRunner) (n : SubgraphName),
      (spawn r sp st n "").result ≠ .error .emptyCommand ∧
      (spawn r sp st n "   ").result ≠ .error .emptyCommand) ∧
    (spawn (fun _ => false) (fun _ _ => none) (CommandRunner.mk []) "a" "").result
      = .error (.executableNotFound "") ∧
    (spawn (fun _ => false) (fun _ _ => none) (CommandRunner.mk []) "a" "   ").result
      = .error (.executableNotFound "") := by
  refine ⟨fun r sp st n => ?_, rfl, rfl⟩
  have h1 : splitCommand "" = [""] := by decide
  have h2 : splitCommand "   " = ["", "", "", ""] := by decide
  constructor
  · by_cases hdup : st.tasks.any (fun t => t.1 = n) = true
    · simp [spawn, hdup]
    · by_cases hres : r "" = true
      · rcases hsp : sp "" [] with _ | pid <;> simp [spawn, hdup, h1, hres, hsp]
      · simp [spawn, hdup, h1, hres]
  · by_cases hdup : st.tasks.any (fun t => t.1 = n) = true
    · simp [spawn, hdup]
    · by_cases hres : r "" = true
      · rcases hsp : sp "" ["", "", ""] with _ | pid <;>
          simp [spawn, hdup, h2, hres, hsp]
      · simp [spawn, hdup, h2, hres]

/-- C4 counterexample: the command line `"a  b"` (two consecutive spaces)
is split into executable `"a"` and argument tokens `["", "b"]`, so the
launch receives an empty argument token — refuting "runs of consecutive
whitespace ... introduce no empty argument tokens". -/
theorem spawn_consecutive_spaces_empty_arg :
    (spawn (fun _ => true) (fun _ _ => some 7) (CommandRunner.mk []) "n" "a  b").launched
      = [("a", ["", "b"])] ∧
    ("" ∈ (["", "b"] : List String)) := by
  exact ⟨rfl, by decide⟩

/-- C4 amended: `spawn` splits the command line on each single space
character into the first token as executable and the remaining tokens (empty
pieces included) as arguments, and launches the process with exactly that
executable and argument list. -/
theorem spawn_splits_on_single_space (r : String → Bool)
    (sp : String → List String → Option Pid) (st : CommandRunner)
    (n : SubgraphName) (cmd bin : String) (args : List String) (pid : Pid)
    (hdup : st.tasks.any (fun t => t.1 = n) = false)
    (hsplit : splitCommand cmd = bin :: args)
    (hres : r bin = true) (hsp : sp bin args = some pid) :
    spawn r sp st n cmd =
      ⟨⟨st.tasks ++ [(n, ⟨pid⟩)]⟩, .ok (), [(bin, args)]⟩ := by
  simp [spawn, hdup, hsplit, hres, hsp]

/-- Witness for C4's amended theorem at the concrete command `"a  b"`. -/
theorem spawn_splits_on_single_space_witness :
    splitCommand "a  b" = ["a", "", "b"] ∧
    spawn (fun _ => true) (fun _ _ => some 7) (CommandRunner.mk []) "n" "a  b"
      = ⟨⟨[("n", ⟨7⟩)]⟩, .ok (), [("a", ["", "b"])]⟩ :=
  ⟨by decide,
   spawn_splits_on_single_space (fun _ => true) (fun _ _ => some 7)
     (CommandRunner.mk []) "n" "a  b" "a" ["", "b"] 7 rfl (by decide) rfl rfl⟩

/-- C5: after a successful `spawn(n, cmd)`, a second `spawn(n, cmd')` — with
any resolver and launcher — returns the `DuplicateTask` error, leaves the
registry exactly as the first call left it, and launches nothing. -/
theorem spawn_duplicate_second_call (r r2 : String → Bool)
    (sp sp2 : String → List String → Option Pid) (st : CommandRunner)
    (n : SubgraphName) (cmd cmd' : String)
    (h : (spawn r sp st n cmd).result = .ok ()) :
    spawn r2 sp2 (spawn r sp st n cmd).state n cmd' =
      ⟨(spawn r sp st n cmd).state, .error (.duplicateTask n), []⟩ := by
  have hany := spawn_ok_any r sp st n cmd h
  generalize hS : (spawn r sp st n cmd).state = S at hany ⊢
  simp [spawn, hany]

/-- Witness for C5 at a concrete first spawn of `"echo hi"` under name `"a"`. -/
theorem spawn_duplicate_second_call_witness :
    (spawn (fun _ => true) (fun _ _ => some 3) (CommandRunner.mk []) "a" "echo hi").result
      = .ok () ∧
    spawn (fun _ => true) (fun _ _ => some 3)
        (spawn (fun _ => true) (fun _ _ => some 3) (CommandRunner.mk []) "a" "echo hi").state
        "a" "echo x"
      = ⟨(spawn (fun _ => true) (fun _ _ => some 3) (CommandRunner.mk []) "a" "echo hi").state,
         .error (.duplicateTask "a"), []⟩ :=
  ⟨rfl,
   spawn_duplicate_second_call (fun _ => true) (fun _ => true) (fun _ _ => some 3)
     (fun _ _ => some 3) (CommandRunner.mk []) "a" "echo hi" "echo x" rfl⟩

/-- C10: `spawn` is atomic on failure — whenever it returns any error
(duplicate name, empty command, unresolvable executable or launch failure),
the registry is exactly as it was before the call. -/
theorem spawn_atomic_on_failure (r : String → Bool)
    (sp : String → List String → Option Pid) (st : CommandRunner)
    (n : SubgraphName) (cmd : String) (e : RoverError)
    (h : (spawn r sp st n cmd).result = .error e) :
    (spawn r sp st n cmd).state = st := by
  by_cases hdup : st.tasks.any (fun t => t.1 = n) = true
  · simp [spawn, hdup]
  · rcases hsplit : splitCommand cmd with _ | ⟨bin, args⟩
    · simp [spawn, hdup, hsplit]
    · by_cases hres : r bin = true
      · rcases hsp : sp bin args with _ | pid
        · simp [spawn, hdup, hsplit, hres, hsp]
        · simp [spawn, hdup, hsplit, hres, hsp] at h
      · simp [spawn, hdup, hsplit, hres]

/-- Witness for C10 at a concrete failing spawn (unresolvable executable). -/
theorem spawn_atomic_on_failure_witness :
    (spawn (fun _ => false) (fun _ _ => none) (CommandRunner.mk []) "a" "b").result
      = .error (.executableNotFound "b") ∧
    (spawn (fun _ => false) (fun _ _ => none) (CommandRunner.mk []) "a" "b").state
      = CommandRunner.mk [] :=
  ⟨rfl,
   spawn_atomic_on_failure (fun _ => false) (fun _ _ => none) (CommandRunner.mk [])
     "a" "b" (.executableNotFound "b") rfl⟩

/-- C2 counterexample: `kill_tasks` does not drain the registry, so it is
not idempotent.  Starting from a runner tracking one task `("a", pid 1)`, a
first `kill_tasks` (process present, kill succeeding) returns; the second
`kill_tasks` on the resulting state (process now gone from the refreshed
snapshot) still performs a removal-notification call for `"a"` — refuting
"a second call ... performs no notification calls". -/
theorem kill_tasks_second_call_notifies :
    Effect.notify "a" ∈
      (kill_tasks (fun _ => true) (fun _ => false) (fun _ => true)
        (kill_tasks (fun _ => true) (fun _ => true) (fun _ => true)
          (CommandRunner.mk [("a", ⟨1⟩)])).1).2 := by
  decide

/-- C2 amended: `kill_tasks` always leaves the registry (and hence the
runner state) unchanged; it performs no calls at all exactly when the
registry is empty, and a repeated call on the state it returns performs the
same calls again (given the same collaborator outcomes), rather than being
a no-op. -/
theorem kill_tasks_keeps_registry (notifyOk : SubgraphName → Bool)
    (procHas killOk : Pid → Bool) (st : CommandRunner) :
    (kill_tasks notifyOk procHas killOk st).1 = st ∧
    (st.tasks = [] → (kill_tasks notifyOk procHas killOk st).2 = []) ∧
    (kill_tasks notifyOk procHas killOk (kill_tasks notifyOk procHas killOk st).1).2
      = (kill_tasks notifyOk procHas killOk st).2 := by
  have h1 : (kill_tasks notifyOk procHas killOk st).1 = st := by
    unfold kill_tasks
    split <;> rfl
  refine ⟨h1, fun he => ?_, by rw [h1]⟩
  simp [kill_tasks, he]

/-- Witness for C2's amended theorem on the empty-registry runner. -/
theorem kill_tasks_keeps_registry_witness :
    (kill_tasks (fun _ => true) (fun _ => true) (fun _ => true) (CommandRunner.mk [])).1
      = CommandRunner.mk [] ∧
    (kill_tasks (fun _ => true) (fun _ => true) (fun _ => true) (CommandRunner.mk [])).2
      = [] :=
  ⟨(kill_tasks_keeps_registry (fun _ => true) (fun _ => true) (fun _ => true)
      (CommandRunner.mk [])).1,
   (kill_tasks_keeps_registry (fun _ => true) (fun _ => true) (fun _ => true)
      (CommandRunner.mk [])).2.1 rfl⟩

/-- C8: `kill_tasks` returns normally (its embedding has no error outcome,
as the source returns `()`), and for every registered task — whatever the
notification, process-table and kill outcomes for it or any other task —
the removal notification is sent, and the kill request is made whenever the
task's pid is in the refreshed snapshot. -/
theorem kill_tasks_processes_every_task (notifyOk : SubgraphName → Bool)
    (procHas killOk : Pid → Bool) (st : CommandRunner) (n : SubgraphName)
    (task : BackgroundTask) (hmem : (n, task) ∈ st.tasks) :
    Effect.notify n ∈ (kill_tasks notifyOk procHas killOk st).2 ∧
    (procHas task.pid = true →
      Effect.kill task.pid ∈ (kill_tasks notifyOk procHas killOk st).2) := by
  have hne : st.tasks.isEmpty = false := by
    cases hst : st.tasks with
    | nil => rw [hst] at hmem; cases hmem
    | cons a l => simp
  constructor
  · simp only [kill_tasks, hne, Bool.false_eq_true, if_false, List.mem_flatMap]
    exact ⟨(n, task), hmem, by simp [perTaskEffects]⟩
  · intro hp
    simp only [kill_tasks, hne, Bool.false_eq_true, if_false, List.mem_flatMap]
    exact ⟨(n, task), hmem, by simp [perTaskEffects, hp]⟩

/-- Witness for C8 on a one-task runner whose notification fails, whose pid
is in the snapshot, and whose kill request fails. -/
theorem kill_tasks_processes_every_task_witness :
    Effect.notify "a" ∈
      (kill_tasks (fun _ => false) (fun _ => true) (fun _ => false)
        (CommandRunner.mk [("a", ⟨1⟩)])).2 ∧
    Effect.kill 1 ∈
      (kill_tasks (fun _ => false) (fun _ => true) (fun _ => false)
        (CommandRunner.mk [("a", ⟨1⟩)])).2 :=
  ⟨(kill_tasks_processes_every_task (fun _ => false) (fun _ => true) (fun _ => false)
      (CommandRunner.mk [("a", ⟨1⟩)]) "a" ⟨1⟩ (by decide)).1,
   (kill_tasks_processes_every_task (fun _ => false) (fun _ => true) (fun _ => false)
      (CommandRunner.mk [("a", ⟨1⟩)]) "a" ⟨1⟩ (by decide)).2 rfl⟩

/-- C9: discarding a `CommandRunner` (`impl Drop`) has exactly the effect of
calling `kill_tasks`, for every runner state and collaborator outcome. -/
theorem drop_runner_eq_kill_tasks (notifyOk : SubgraphName → Bool)
    (procHas killOk : Pid → Bool) (st : CommandRunner) :
    dropRunner notifyOk procHas killOk st = kill_tasks notifyOk procHas killOk st := rfl

/-- When the scanner reports no new endpoint at any iteration, the polling
loop resolves nothing and never invokes the chooser. -/
theorem findUrlLoop_all_empty (choose : List Endpoint → Option Nat)
    (trace : List (Nat × List Endpoint)) (h : ∀ p ∈ trace, p.2 = []) :
    findUrlLoop choose trace = (none, []) := by
  induction trace with
  | nil => rfl
  | cons p rest ih =>
    obtain ⟨t, es⟩ := p
    have hes : es = [] := h (t, es) (List.mem_cons_self _ _)
    subst hes
    simp only [findUrlLoop]
    split
    · exact ih (fun q hq => h q (List.mem_cons_of_mem _ hq))
    · rfl

/-- C3: if the spawn succeeds and the scanner reports zero new endpoints
at every in-deadline iteration, then once the 5-second deadline elapses
(an iteration observes `now.elapsed() ≥ 5000` ms, ending the trace of
in-deadline polls), `spawn_and_find_url` returns the `DiscoveryTimeout`
error and the spawned task is still registered under its name. -/
theorem spawn_and_find_url_timeout (r : String → Bool)
    (sp : String → List String → Option Pid) (st : CommandRunner)
    (n : SubgraphName) (cmd : String) (trace : List (Nat × List Endpoint))
    (choose : List Endpoint → Option Nat)
    (hspawn : (spawn r sp st n cmd).result = .ok ())
    (hempty : ∀ p ∈ trace, p.2 = [])
    (_hdeadline : ∃ p ∈ trace, 5000 ≤ p.1) :
    (spawn_and_find_url r sp st n cmd trace choose).result = .error .discoveryTimeout ∧
    (spawn_and_find_url r sp st n cmd trace choose).state.tasks.any
        (fun t => t.1 = n) = true := by
  have hloop := findUrlLoop_all_empty choose trace hempty
  have hany := spawn_ok_any r sp st n cmd hspawn
  constructor
  · simp [spawn_and_find_url, hspawn, hloop]
  · simpa [spawn_and_find_url, hspawn, hloop] using hany

/-- Witness for C3: spawning `"b"` as `"a"` on a fresh runner, with a trace
whose polls all report nothing and whose last guard check is at the
deadline. -/
theorem spawn_and_find_url_timeout_witness :
    (spawn (fun _ => true) (fun _ _ => some 3) (CommandRunner.mk []) "a" "b").result
      = .ok () ∧
    (spawn_and_find_url (fun _ => true) (fun _ _ => some 3) (CommandRunner.mk []) "a" "b"
        [(0, []), (4999, []), (5000, [])] (fun _ => none)).result
      = .error .discoveryTimeout ∧
    (spawn_and_find_url (fun _ => true) (fun _ _ => some 3) (CommandRunner.mk []) "a" "b"
        [(0, []), (4999, []), (5000, [])] (fun _ => none)).state.tasks.any
        (fun t => t.1 = "a") = true :=
  ⟨rfl,
   spawn_and_find_url_timeout (fun _ => true) (fun _ _ => some 3) (CommandRunner.mk [])
     "a" "b" [(0, []), (4999, []), (5000, [])] (fun _ => none) rfl (by decide) (by decide)⟩

/-- C6: if the spawn succeeds and the scanner's first in-deadline poll
reports exactly one new endpoint `E`, then `spawn_and_find_url` returns
`Ok E` and the interactive chooser is never invoked. -/
theorem spawn_and_find_url_single_endpoint (r : String → Bool)
    (sp : String → List String → Option Pid) (st : CommandRunner)
    (n : SubgraphName) (cmd : String) (t : Nat) (E : Endpoint)
    (rest : List (Nat × List Endpoint)) (choose : List Endpoint → Option Nat)
    (hspawn : (spawn r sp st n cmd).result = .ok ()) (ht : t < 5000) :
    (spawn_and_find_url r sp st n cmd ((t, [E]) :: rest) choose).result = .ok E ∧
    (spawn_and_find_url r sp st n cmd ((t, [E]) :: rest) choose).chooserCalls = [] := by
  have hloop : findUrlLoop choose ((t, [E]) :: rest) = (some E, []) := by
    simp [findUrlLoop, ht]
  constructor <;> simp [spawn_and_find_url, hspawn, hloop]

/-- Witness for C6 with the single endpoint `"E"` on the first poll. -/
theorem spawn_and_find_url_single_endpoint_witness :
    (spawn (fun _ => true) (fun _ _ => some 3) (CommandRunner.mk []) "a" "b").result
      = .ok () ∧
    (spawn_and_find_url (fun _ => true) (fun _ _ => some 3) (CommandRunner.mk []) "a" "b"
        [(0, ["E"])] (fun _ => some 0)).result = .ok "E" ∧
    (spawn_and_find_url (fun _ => true) (fun _ _ => some 3) (CommandRunner.mk []) "a" "b"
        [(0, ["E"])] (fun _ => some 0)).chooserCalls = [] :=
  ⟨rfl,
   spawn_and_find_url_single_endpoint (fun _ => true) (fun _ _ => some 3)
     (CommandRunner.mk []) "a" "b" 0 "E" [] (fun _ => some 0) rfl (by decide)⟩

/-- C7: when an in-deadline poll reports more than one candidate, the
chooser is invoked on that candidate list; if it returns index `i`, the call
resolves to the `i`-th candidate (so with candidates `[E1, E2]` and a
chooser answering `0` the result is `E1`); if the chooser fails, the loop
result is the result of polling the remaining iterations. -/
theorem spawn_and_find_url_multi_choice (r : String → Bool)
    (sp : String → List String → Option Pid) (st : CommandRunner)
    (n : SubgraphName) (cmd : String) (t : Nat) (e1 e2 : Endpoint)
    (tl : List Endpoint) (rest : List (Nat × List Endpoint))
    (choose : List Endpoint → Option Nat) (i : Nat)
    (hspawn : (spawn r sp st n cmd).result = .ok ()) (ht : t < 5000) :
    (choose (e1 :: e2 :: tl) = some i →
      (spawn_and_find_url r sp st n cmd ((t, e1 :: e2 :: tl) :: rest) choose).result
          = .ok ((e1 :: e2 :: tl).getD i "") ∧
      (spawn_and_find_url r sp st n cmd ((t, e1 :: e2 :: tl) :: rest) choose).chooserCalls
          = [e1 :: e2 :: tl]) ∧
    (choose (e1 :: e2 :: tl) = none →
      (findUrlLoop choose ((t, e1 :: e2 :: tl) :: rest)).1
        = (findUrlLoop choose rest).1) := by
  constructor
  · intro hc
    have hloop : findUrlLoop choose ((t, e1 :: e2 :: tl) :: rest)
        = (some ((e1 :: e2 :: tl).getD i ""), [e1 :: e2 :: tl]) := by
      simp [findUrlLoop, ht, hc]
    constructor <;> simp [spawn_and_find_url, hspawn, hloop]
  · intro hc
    simp [findUrlLoop, ht, hc]

/-- Witness for C7: candidates `["E1", "E2"]` with a chooser answering
index `0` resolve to `"E1"`; with a failing chooser, the loop result is
that of the remaining trace. -/
theorem spawn_and_find_url_multi_choice_witness :
    (spawn_and_find_url (fun _ => true) (fun _ _ => some 3) (CommandRunner.mk []) "a" "b"
        [(0, ["E1", "E2"])] (fun _ => some 0)).result = .ok "E1" ∧
    (spawn_and_find_url (fun _ => true) (fun _ _ => some 3) (CommandRunner.mk []) "a" "b"
        [(0, ["E1", "E2"])] (fun _ => some 0)).chooserCalls = [["E1", "E2"]] ∧
    (findUrlLoop (fun _ => none) [(0, ["E1", "E2"])]).1
      = (findUrlLoop (fun _ => none) []).1 :=
  ⟨((spawn_and_find_url_multi_choice (fun _ => true) (fun _ _ => some 3)
      (CommandRunner.mk []) "a" "b" 0 "E1" "E2" [] [] (fun _ => some 0) 0 rfl
      (by decide)).1 rfl).1,
   ((spawn_and_find_url_multi_choice (fun _ => true) (fun _ _ => some 3)
      (CommandRunner.mk []) "a" "b" 0 "E1" "E2" [] [] (fun _ => some 0) 0 rfl
      (by decide)).1 rfl).2,
   (spawn_and_find_url_multi_choice (fun _ => true) (fun _ _ => some 3)
      (CommandRunner.mk []) "a" "b" 0 "E1" "E2" [] [] (fun _ => none) 0 rfl
      (by decide)).2 rfl⟩

end Rover
